import Mathlib

/-!
Verification of the Codimension IDE introspection plugin
(`cdmplugins/ideintrospection`): a shallow embedding in Lean 4 of the
plugin's pure logic and of its effects on the host IDE's Qt state, with
theorems checking the natural-language description of the plugin.

The two source files embedded here are
`cdmplugins/ideintrospection/__init__.py` (class `IntrospectionPlugin`)
and `cdmplugins/ideintrospection/introspectionconfigdialog.py`
(class `IntrospectionPluginConfigDialog`).
-/

/-! ### Strict version numbers (`distutils.version.StrictVersion`)

`IntrospectionPlugin.isIDEVersionCompatible` evaluates
`StrictVersion(ideVersion) >= StrictVersion('4.7.0')`.  The embedding
reproduces `distutils`' `StrictVersion`: the regular expression
`^(\d+) \. (\d+) (\. (\d+))? ([ab](\d+))?$` (with `\d` read as an ASCII
digit and `$` as end of string), a missing patch number read as `0`, and
the comparison method `_cmp` returning -1, 0 or 1. -/

/-- A parsed strict version: `major.minor.patch` with an optional
prerelease tag.  The prerelease letter is modelled as a `Bool`:
`false` for the letter `a`, `true` for the letter `b` (so the `Bool`
order matches the string order of the letters). -/
structure StrictVersionV where
  major : Nat
  minor : Nat
  patch : Nat
  prerelease : Option (Bool × Nat)
deriving DecidableEq

/-- Value of a nonempty string of decimal digits, as Python `int` reads it. -/
def digitsToNat (l : List Char) : Nat :=
  l.foldl (fun acc c => acc * 10 + (c.toNat - 48)) 0

/-- Parses the optional prerelease part `([ab]\d+)?$` of a strict version. -/
def parsePrerelease (ma mi pa : Nat) (rest : List Char) : Option StrictVersionV :=
  match rest with
  | [] => some ⟨ma, mi, pa, none⟩
  | c :: rest2 =>
    if c = 'a' ∨ c = 'b' then
      match rest2.span Char.isDigit with
      | (preDigits, rest3) =>
        if preDigits.isEmpty ∨ ¬ rest3.isEmpty then none
        else some ⟨ma, mi, pa, some (c = 'b', digitsToNat preDigits)⟩
    else none

/-- Parses a version string against the `StrictVersion` regular expression
`^(\d+) \. (\d+) (\. (\d+))? ([ab](\d+))?$`; `none` models the
`ValueError` raised on a mismatch. -/
def parseStrictVersion (s : String) : Option StrictVersionV :=
  match (s.toList).span Char.isDigit with
  | (majDigits, rest1) =>
    if majDigits.isEmpty then none
    else
      match rest1 with
      | '.' :: rest2 =>
        match rest2.span Char.isDigit with
        | (minDigits, rest3) =>
          if minDigits.isEmpty then none
          else
            match rest3 with
            | '.' :: rest4 =>
              match rest4.span Char.isDigit with
              | (patDigits, rest5) =>
                if patDigits.isEmpty then none
                else parsePrerelease (digitsToNat majDigits) (digitsToNat minDigits)
                  (digitsToNat patDigits) rest5
            | _ => parsePrerelease (digitsToNat majDigits) (digitsToNat minDigits) 0 rest3
      | _ => none

/-- Python `<` on the 3-tuples `self.version` and `other.version`
(lexicographic tuple comparison). -/
def versionTupleLt (x y : Nat × Nat × Nat) : Prop :=
  x.1 < y.1 ∨ (x.1 = y.1 ∧ (x.2.1 < y.2.1 ∨ (x.2.1 = y.2.1 ∧ x.2.2 < y.2.2)))

instance (x y : Nat × Nat × Nat) : Decidable (versionTupleLt x y) :=
  instDecidableOr

/-- Python `<` on the 2-tuples `self.prerelease` and `other.prerelease`
(letter compared first, as a string; then the number). -/
def prereleaseTupleLt (x y : Bool × Nat) : Prop :=
  (x.1 = false ∧ y.1 = true) ∨ (x.1 = y.1 ∧ x.2 < y.2)

instance (x y : Bool × Nat) : Decidable (prereleaseTupleLt x y) :=
  instDecidableOr

/-- `StrictVersion._cmp` from `distutils.version`: compares the version
tuples first, and on equal tuples compares prereleases, a prerelease
sorting before the corresponding release; returns -1, 0 or 1. -/
def strictVersionCmp (x y : StrictVersionV) : Int :=
  if (x.major, x.minor, x.patch) ≠ (y.major, y.minor, y.patch) then
    if versionTupleLt (x.major, x.minor, x.patch) (y.major, y.minor, y.patch)
    then -1 else 1
  else
    match x.prerelease, y.prerelease with
    | none, none => 0
    | some _, none => -1
    | none, some _ => 1
    | some px, some py =>
      if px = py then 0
      else if prereleaseTupleLt px py then -1 else 1

/-- `IntrospectionPlugin.isIDEVersionCompatible`:
`StrictVersion(ideVersion) >= StrictVersion('4.7.0')`.  The result is
`none` when the argument does not parse (Python raises `ValueError`);
otherwise it is `some` of the comparison result, `>=` on
`StrictVersion` being `_cmp ... >= 0`. -/
def isIDEVersionCompatible (ideVersion : String) : Option Bool :=
  (parseStrictVersion ideVersion).map
    (fun v => decide (0 ≤ strictVersionCmp v ⟨4, 7, 0, none⟩))

/-- Rank of a prerelease tag for the spec-side order: a release is above
every prerelease of the same numeric version, prereleases on the same
version are ordered by letter then number. -/
def preRank (p : Option (Bool × Nat)) : Nat × Nat × Nat :=
  match p with
  | none => (1, 0, 0)
  | some (b, n) => (0, if b then 1 else 0, n)

/-- The spec-side strict order on strict versions, written as the claim
reads it: `major.minor.patch` ordered lexicographically, and at equal
numeric parts the prerelease ranks ordered lexicographically. -/
def specVersionLt (x y : StrictVersionV) : Prop :=
  x.major < y.major ∨
  (x.major = y.major ∧
    (x.minor < y.minor ∨
      (x.minor = y.minor ∧
        (x.patch < y.patch ∨
          (x.patch = y.patch ∧
            ((preRank x.prerelease).1 < (preRank y.prerelease).1 ∨
              ((preRank x.prerelease).1 = (preRank y.prerelease).1 ∧
                ((preRank x.prerelease).2.1 < (preRank y.prerelease).2.1 ∨
                  ((preRank x.prerelease).2.1 = (preRank y.prerelease).2.1 ∧
                    (preRank x.prerelease).2.2 < (preRank y.prerelease).2.2)))))))))

/-- The spec-side `x ≥ y`: `y` is not strictly above `x`. -/
def specVersionGe (x y : StrictVersionV) : Prop :=
  ¬ specVersionLt x y

/-- The version `4.7.0` the plugin compares against. -/
def minimumIDEVersion : StrictVersionV := ⟨4, 7, 0, none⟩

/-! ### The configuration dialog (`introspectionconfigdialog.py`)

`IntrospectionPluginConfigDialog` keeps three class constants
`LOG = 0`, `CONSOLE = 1`, `NEW_TAB = 2`.  `__init__(self, where, parent)`
checks one radio button according to `where`, and `getCheckedOption`
reads the checked button back. -/

/-- A Python value passed as the `where` argument of the dialog:
a number (covering `int`, `float` and `bool` with their numeric values,
which is how Python `==` compares them against the `int` constants) or a
string (never `==` to an `int`). -/
inductive PyWhere
  | num (q : ℚ)
  | str (s : String)
deriving DecidableEq

namespace IntrospectionPluginConfigDialog

/-- Class constant `LOG = 0`. -/
def LOG : ℚ := 0

/-- Class constant `CONSOLE = 1`. -/
def CONSOLE : ℚ := 1

/-- Class constant `NEW_TAB = 2`. -/
def NEW_TAB : ℚ := 2

/-- Which of the three radio buttons of the dialog is checked. -/
inductive CheckedButton
  | logButton
  | consoleButton
  | newtabButton
deriving DecidableEq

/-- `IntrospectionPluginConfigDialog.__init__`: checks the log button
when `where == LOG`, the console button when `where == CONSOLE`, and the
new-tab button otherwise. -/
def dialogInit (whereArg : PyWhere) : CheckedButton :=
  if whereArg = .num LOG then .logButton
  else if whereArg = .num CONSOLE then .consoleButton
  else .newtabButton

/-- `IntrospectionPluginConfigDialog.getCheckedOption`: returns `LOG` if
the log button is checked, `CONSOLE` if the console button is checked,
and `NEW_TAB` otherwise. -/
def getCheckedOption (c : CheckedButton) : ℚ :=
  match c with
  | .logButton => LOG
  | .consoleButton => CONSOLE
  | .newtabButton => NEW_TAB

end IntrospectionPluginConfigDialog

/-- `IntrospectionPlugin.configure` constructs the dialog as
`IntrospectionPluginConfigDialog(PLUGIN_HOME_DIR, self.ide.mainWindow)`:
the first (`where`) argument it passes is the plugin home directory path
string, not the stored setting. -/
def configureDialogWhereArg (pluginHomeDir : String) : PyWhere :=
  .str pluginHomeDir

/-! ### The stored configuration (`__getConfiguredWhere`)

`IntrospectionPlugin.__getConfiguredWhere` reads
`introspection.plugin.json`.  `loadJSON` belongs to the host IDE
(`utils.fileutils`), so its result is quantified over: the embedding
takes the value `loadJSON` returned (an arbitrary JSON value; on a read
or parse failure `loadJSON` hands back the supplied default, which is
also covered by the quantification). -/

/-- A JSON value as `json.load` produces it; numbers are modelled as
rationals, which is exact for the integer constants and for the decimal
literals compared here. -/
inductive JVal
  | jnull
  | jbool (b : Bool)
  | jnum (q : ℚ)
  | jstr (s : String)
  | jarr (elems : List JVal)
  | jobj (fields : List (String × JVal))

/-- Python `values['where']`: a key lookup on a dict; `none` models the
`KeyError` on a missing key and the `TypeError` on a non-dict value,
both caught by the bare `except` of `__getConfiguredWhere`. -/
def getItem (v : JVal) (key : String) : Option JVal :=
  match v with
  | .jobj fields => (fields.find? (fun kv => kv.1 == key)).map Prod.snd
  | _ => none

/-- The numeric content of a JSON value for Python `<`/`>` against an
`int`: numbers compare by value, booleans as 0/1, and anything else
raises `TypeError` (modelled as `none`, caught by the bare `except`). -/
def pyAsNum (v : JVal) : Option ℚ :=
  match v with
  | .jnum q => some q
  | .jbool b => some (if b then 1 else 0)
  | _ => none

/-- The `values` local of `__getConfiguredWhere`: `defaultSettings` when
the configuration file does not exist, else whatever `loadJSON`
returned. -/
def introValues (fileExists : Bool) (loaded : JVal) : JVal :=
  if fileExists then loaded else .jobj [("where", .jnum 1)]

/-- `IntrospectionPlugin.__getConfiguredWhere`: looks up `'where'` in
`values` and returns it unless it is below `LOG` (0) or above `NEW_TAB`
(2); on any exception and on an out-of-range value it returns `CONSOLE`
(1). -/
def getConfiguredWhere (fileExists : Bool) (loaded : JVal) : JVal :=
  match getItem (introValues fileExists loaded) "where" with
  | none => .jnum 1
  | some value =>
    match pyAsNum value with
    | none => .jnum 1
    | some q => if q < 0 ∨ 2 < q then .jnum 1 else value

/-- Whether a Python value compares within `[LOG, NEW_TAB]` against the
`int` bounds (a property of results of `__getConfiguredWhere`, used to
state the amended range claim). -/
def pyInRange (v : JVal) : Bool :=
  match pyAsNum v with
  | some q => decide (0 ≤ q ∧ q ≤ 2)
  | none => false

/-! ### Tracemalloc snapshots and `__memoryDiff`

Snapshots are identified by the order in which `tracemalloc.take_snapshot`
produced them: each call returns a fresh snapshot object. -/

/-- The tracemalloc-related state the plugin carries: the running
snapshot counter (next fresh snapshot id) and `self.__lastSnapshot`. -/
structure SnapshotState where
  clock : Nat
  lastSnapshot : Nat
deriving DecidableEq

/-- `tracemalloc.take_snapshot()`: returns a fresh snapshot and advances
the counter. -/
def takeSnapshot (clock : Nat) : Nat × Nat :=
  (clock, clock + 1)

/-- The tracemalloc lines of `IntrospectionPlugin.activate`:
`tracemalloc.start()` followed by
`self.__lastSnapshot = tracemalloc.take_snapshot()`. -/
def activateSnapshotInit (clock : Nat) : SnapshotState :=
  match takeSnapshot clock with
  | (snap, clock2) => ⟨clock2, snap⟩

/-- Result of one `__memoryDiff` call: the state afterwards and the pair
of snapshots handed to `compare_to` (the snapshot the statistics are
computed from, and the snapshot they are compared against). -/
structure DiffRun where
  state : SnapshotState
  comparedCurrent : Nat
  comparedAgainst : Nat
deriving DecidableEq

/-- `IntrospectionPlugin.__memoryDiff`, line by line:
`currentSnapshot = tracemalloc.take_snapshot()`, then
`self.__lastSnapshot = tracemalloc.take_snapshot()` (a second, fresh
snapshot overwrites the stored one), then
`topStats = currentSnapshot.compare_to(self.__lastSnapshot, 'traceback')`,
then the self-assignment `self.__lastSnapshot = self.__lastSnapshot`
(a no-op). -/
def memoryDiff (s : SnapshotState) : DiffRun :=
  match takeSnapshot s.clock with
  | (currentSnapshot, c1) =>
    match takeSnapshot c1 with
    | (snap2, c2) =>
      let lastA := snap2
      let compared := (currentSnapshot, lastA)
      let lastB := lastA
      ⟨⟨c2, lastB⟩, compared.1, compared.2⟩

/-! ### The Qt side: toolbar, actions, signal connections

`activate` inserts toolbar items before the `debugSpacer` action and
connects `triggered` signals; `deactivate` disconnects and removes.
Actions are identified by fresh numeric ids.  Per the Qt API,
`QToolBar.insertSeparator` and `QToolBar.insertWidget` return the new
`QAction`, while `QWidget.insertAction` is a `void` method — in PyQt it
returns `None`, which is what an assignment of its result stores. -/

/-- The slots of `IntrospectionPlugin` that `activate` and
`__createMemoryMenu` connect `triggered` signals to. -/
inductive Handler
  | onFullMemoryReport
  | onReducedMemoryReport
  | memoryDiff
  | referenceBrowser
deriving DecidableEq

/-- Qt `insertAction(before, x)` order on a toolbar's action list:
insert `x` immediately before the first occurrence of `before`, or
append when `before` is absent. -/
def insertBefore (before x : Nat) : List Nat → List Nat
  | [] => [x]
  | a :: rest => if a = before then x :: a :: rest else a :: insertBefore before x rest

/-- The host Qt state the plugin manipulates: a fresh-id counter, the
main toolbar's ordered action list, the live `triggered` connections,
and the texts of the actions the plugin created. -/
structure QtState where
  nextId : Nat
  toolbar : List Nat
  connections : List (Nat × Handler)
  actionTexts : List (Nat × String)
deriving DecidableEq

/-- The plugin-side fields of `IntrospectionPlugin` relevant to
activation: references to the created actions (`none` both before
activation and where the code stored the `None` result of
`insertAction`), the memory button's menu, and the pympler tracker. -/
structure PluginState where
  qt : QtState
  memMenu : List (Nat × Handler × String)
  separator : Option Nat
  memSummaryButton : Option Nat
  diffButton : Option Nat
  refButton : Option Nat
  fullAct : Option Nat
  reducedAct : Option Nat
  trackerAlive : Bool
deriving DecidableEq

/-- A freshly constructed plugin (`__init__`) next to a toolbar holding
only the `debugSpacer` action (id 0). -/
def initialPluginState : PluginState :=
  ⟨⟨1, [0], [], []⟩, [], none, none, none, none, none, none, false⟩

/-- `IntrospectionPlugin.__createMemoryMenu`: builds a two-entry menu,
connecting `Full memory objects list` to `__onFullMemoryReport` and
`Memory objects without functions and modules` to
`__onReducedMemoryReport`; stores the actions in `self.fullAct` and
`self.reducedAct`. -/
def createMemoryMenu (p : PluginState) : PluginState :=
  let f := p.qt.nextId
  let r := p.qt.nextId + 1
  { p with
    qt := { p.qt with
      nextId := p.qt.nextId + 2,
      connections := p.qt.connections ++
        [(f, Handler.onFullMemoryReport), (r, Handler.onReducedMemoryReport)] },
    memMenu := [(f, Handler.onFullMemoryReport, "Full memory objects list"),
      (r, Handler.onReducedMemoryReport, "Memory objects without functions and modules")],
    fullAct := some f,
    reducedAct := some r }

/-- `IntrospectionPlugin.activate` (the toolbar part), with `debugSpacer`
the action found by `findChild`:
a separator is inserted before it and stored in `self.__separator`;
the memory tool button (with the menu of `__createMemoryMenu`) is
inserted via `insertWidget`, whose returned action is stored in
`self.__memSummaryButton`;
the `Memory usage diff` action is created, connected to `__memoryDiff`
and inserted via `insertAction`, whose `None` result overwrites
`self.__diffButton`; likewise the `Reference browser` action, connected
to `__referenceBrowser`, with `None` overwriting `self.__refButton`;
finally the pympler tracker is created (the tracemalloc lines are
modelled by `activateSnapshotInit`). -/
def activate (p : PluginState) (debugSpacer : Nat) : PluginState :=
  let sep := p.qt.nextId
  let p1 : PluginState :=
    { p with
      qt := { p.qt with
        nextId := sep + 1,
        toolbar := insertBefore debugSpacer sep p.qt.toolbar },
      separator := some sep }
  let p2 := createMemoryMenu p1
  let mem := p2.qt.nextId
  let p3 : PluginState :=
    { p2 with
      qt := { p2.qt with
        nextId := mem + 1,
        toolbar := insertBefore debugSpacer mem p2.qt.toolbar },
      memSummaryButton := some mem }
  let d := p3.qt.nextId
  let p4 : PluginState :=
    { p3 with
      qt := { p3.qt with
        nextId := d + 1,
        toolbar := insertBefore debugSpacer d p3.qt.toolbar,
        connections := p3.qt.connections ++ [(d, Handler.memoryDiff)],
        actionTexts := p3.qt.actionTexts ++ [(d, "Memory usage diff")] },
      diffButton := none }
  let e := p4.qt.nextId
  let p5 : PluginState :=
    { p4 with
      qt := { p4.qt with
        nextId := e + 1,
        toolbar := insertBefore debugSpacer e p4.qt.toolbar,
        connections := p4.qt.connections ++ [(e, Handler.referenceBrowser)],
        actionTexts := p4.qt.actionTexts ++ [(e, "Reference browser")] },
      refButton := none }
  { p5 with trackerAlive := true }

/-- `x.triggered.disconnect(handler)` where `x` is the content of a
plugin field: `none` models the `AttributeError` raised when the field
holds `None` (and the `TypeError` when the signal is not connected to
that handler); otherwise the first matching connection is removed. -/
def disconnectHandler (q : QtState) (act : Option Nat) (h : Handler) : Option QtState :=
  match act with
  | none => none
  | some i =>
    if (i, h) ∈ q.connections then
      some { q with connections := q.connections.erase (i, h) }
    else none

/-- `mainToolbar.removeAction(a)`: removes the action from the toolbar
(a no-op on `None`, as on a C++ null pointer). -/
def removeAction (q : QtState) (act : Option Nat) : QtState :=
  match act with
  | none => q
  | some i => { q with toolbar := q.toolbar.erase i }

/-- `x.deleteLater()` on an action reference: `none` models the
`AttributeError` on `None`; otherwise the object is destroyed, so Qt
drops it from every widget and disconnects its signals. -/
def deleteLaterAction (q : QtState) (act : Option Nat) : Option QtState :=
  match act with
  | none => none
  | some i =>
    some ⟨q.nextId, q.toolbar.erase i,
      q.connections.filter (fun c => c.1 ≠ i),
      q.actionTexts⟩

/-- `IntrospectionPlugin.deactivate`, statement by statement; the second
component is `true` when an exception escaped (there is no handler in
`deactivate`), and the first is the state at that point. -/
def deactivate (p : PluginState) : PluginState × Bool :=
  let p0 : PluginState := { p with trackerAlive := false }
  match disconnectHandler p0.qt p0.fullAct Handler.onFullMemoryReport with
  | none => (p0, true)
  | some q1 =>
    let p1 : PluginState := { p0 with qt := q1 }
    match disconnectHandler p1.qt p1.reducedAct Handler.onReducedMemoryReport with
    | none => (p1, true)
    | some q2 =>
      let p2 : PluginState := { p1 with qt := q2 }
      match disconnectHandler p2.qt p2.diffButton Handler.memoryDiff with
      | none => (p2, true)
      | some q3 =>
        let p3 : PluginState := { p2 with qt := q3 }
        match disconnectHandler p3.qt p3.refButton Handler.referenceBrowser with
        | none => (p3, true)
        | some q4 =>
          let p4 : PluginState := { p3 with qt := q4 }
          let p5 : PluginState :=
            { p4 with qt := removeAction p4.qt p4.memSummaryButton }
          match deleteLaterAction p5.qt p5.memSummaryButton with
          | none => (p5, true)
          | some q6 =>
            let p6 : PluginState :=
              { p5 with qt := removeAction q6 p5.separator }
            match deleteLaterAction p6.qt p6.separator with
            | none => (p6, true)
            | some q7 =>
              let p7 : PluginState := { p6 with qt := q7 }
              match deleteLaterAction p7.qt p7.diffButton with
              | none => (p7, true)
              | some q8 =>
                let p8 : PluginState := { p7 with qt := q8 }
                match deleteLaterAction p8.qt p8.refButton with
                | none => (p8, true)
                | some q9 => ({ p8 with qt := q9 }, false)

/-! ### What each slot does: calls into the external libraries

The report slots forward everything to pympler, muppy and tracemalloc
and print the results; none of them invokes a debugger. -/

/-- An external call a slot can make.  `debuggerBreakpoint` is in the
vocabulary so that its absence is expressible; no slot of this plugin
performs it. -/
inductive ExtCall
  | muppyGetObjects (removeDups includeFrames : Bool)
  | summarySummarize
  | summaryPrint (limit : Nat)
  | printText (s : String)
  | tmTakeSnapshot
  | tmCompareTo (keyType : String)
  | tmDisplayTop (keyType : String)
  | trackerPrintDiff
  | refBrowserCreate
  | refBrowserMain
  | debuggerBreakpoint
deriving DecidableEq

/-- The sequence of external calls each slot makes on its normal path
(the data-dependent `print` loops of the reports emit further console
prints and call nothing else). -/
def handlerCalls (h : Handler) : List ExtCall :=
  match h with
  | .onFullMemoryReport =>
    [.muppyGetObjects true false, .summarySummarize, .summaryPrint 10000]
  | .onReducedMemoryReport =>
    [.muppyGetObjects true false, .summarySummarize, .summaryPrint 10000,
     .printText "Tracemalloc report", .tmTakeSnapshot, .tmDisplayTop "traceback"]
  | .memoryDiff =>
    [.tmTakeSnapshot, .tmTakeSnapshot, .tmCompareTo "traceback", .trackerPrintDiff]
  | .referenceBrowser => [.refBrowserCreate, .refBrowserMain]

/-! ### Report output

The text the report slots produce, with the external libraries held
abstract, and each emitted line tagged with its destination. -/

/-- A Python object as the reduced report inspects it. -/
structure PyObj where
  objId : Nat
  isFunction : Bool
  isModule : Bool
deriving DecidableEq

/-- One emitted line of report output, tagged with where it goes:
`consolePrint` is Python `print`; the IDE log tab and a new editor tab
are the two other destinations the configuration dialog offers. -/
inductive OutEvent
  | consolePrint (line : String)
  | logWrite (line : String)
  | newTabWrite (line : String)
deriving DecidableEq

/-- `true` exactly on lines written with Python `print`. -/
def isConsolePrint (e : OutEvent) : Bool :=
  match e with
  | .consolePrint _ => true
  | _ => false

/-- The external libraries, held abstract: what `muppy.get_objects`
returns for given `remove_dups`/`include_frames` arguments, pympler
summaries as opaque handles, the lines `summary.print_` emits for a
summary and a row limit, and the lines the tracemalloc / tracker parts
emit. -/
structure ReportWorld where
  getObjects : Bool → Bool → List PyObj
  summarize : List PyObj → Nat
  summaryLines : Nat → Nat → List String
  displayTopLines : String → List String
  compareStatLines : List String
  trackerDiffLines : List String

/-- `IntrospectionPlugin.__onFullMemoryReport`: summarizes
`muppy.get_objects(remove_dups=True, include_frames=False)` and prints
the summary with `limit=10000`.  The `where` setting of `self` is passed
in but never read, as in the source. -/
def onFullMemoryReport (whereSetting : ℚ) (w : ReportWorld) : List OutEvent :=
  (w.summaryLines (w.summarize (w.getObjects true false)) 10000).map .consolePrint

/-- `IntrospectionPlugin.__onReducedMemoryReport`: like the full report
but over the objects that are neither functions nor modules, followed by
`print('Tracemalloc report')` and `display_top` of a fresh snapshot with
`key_type='traceback'`. -/
def onReducedMemoryReport (whereSetting : ℚ) (w : ReportWorld) : List OutEvent :=
  ((w.summaryLines
      (w.summarize ((w.getObjects true false).filter
        (fun x => !x.isFunction && !x.isModule))) 10000).map .consolePrint)
    ++ [.consolePrint "Tracemalloc report"]
    ++ ((w.displayTopLines "traceback").map .consolePrint)

/-- The lines `IntrospectionPlugin.__memoryDiff` prints: one per
comparison statistic, then the tracker diff. -/
def memoryDiffReport (whereSetting : ℚ) (w : ReportWorld) : List OutEvent :=
  (w.compareStatLines.map .consolePrint) ++ (w.trackerDiffLines.map .consolePrint)

/-! ### Menu population callbacks

The bodies of the four `populate*Menu` methods consist of a single
`del parentMenu`, which unbinds the local name and performs no operation
on the menu or on the plugin. -/

/-- `IntrospectionPlugin.populateMainMenu`: body `del parentMenu`. -/
def populateMainMenu (p : PluginState) (parentMenu : List (Nat × String)) :
    PluginState × List (Nat × String) :=
  (p, parentMenu)

/-- `IntrospectionPlugin.populateFileContextMenu`: body `del parentMenu`. -/
def populateFileContextMenu (p : PluginState) (parentMenu : List (Nat × String)) :
    PluginState × List (Nat × String) :=
  (p, parentMenu)

/-- `IntrospectionPlugin.populateDirectoryContextMenu`: body `del parentMenu`. -/
def populateDirectoryContextMenu (p : PluginState) (parentMenu : List (Nat × String)) :
    PluginState × List (Nat × String) :=
  (p, parentMenu)

/-- `IntrospectionPlugin.populateBufferContextMenu`: body `del parentMenu`. -/
def populateBufferContextMenu (p : PluginState) (parentMenu : List (Nat × String)) :
    PluginState × List (Nat × String) :=
  (p, parentMenu)

/-! ## Theorems -/

lemma strictVersionCmp_nonneg_iff (x y : StrictVersionV) :
    0 ≤ strictVersionCmp x y ↔ ¬ specVersionLt x y := by
  rcases x with ⟨xa, xb, xc, xp⟩
  rcases y with ⟨ya, yb, yc, yp⟩
  unfold strictVersionCmp specVersionLt
  dsimp only
  by_cases htup : (xa, xb, xc) = (ya, yb, yc)
  · obtain ⟨h1, h2, h3⟩ : xa = ya ∧ xb = yb ∧ xc = yc := by
      simpa [Prod.ext_iff] using htup
    subst h1; subst h2; subst h3
    rw [if_neg (by simp)]
    rcases xp with _ | ⟨bx, nx⟩ <;> rcases yp with _ | ⟨by2, ny⟩
    · norm_num [preRank]
    · cases by2 <;> norm_num [preRank]
    · cases bx <;> norm_num [preRank]
    · dsimp only
      by_cases hpe : ((bx, nx) : Bool × Nat) = (by2, ny)
      · obtain ⟨hb, hn⟩ : bx = by2 ∧ nx = ny := by simpa [Prod.ext_iff] using hpe
        subst hb; subst hn
        rw [if_pos rfl]
        cases bx <;> norm_num [preRank]
      · rw [if_neg hpe]
        by_cases hplt : prereleaseTupleLt (bx, nx) (by2, ny)
        · rw [if_pos hplt]
          unfold prereleaseTupleLt at hplt
          cases bx <;> cases by2 <;> simp_all [preRank]
        · rw [if_neg hplt]
          unfold prereleaseTupleLt at hplt
          push_neg at hplt
          cases bx <;> cases by2 <;> simp_all [preRank, Prod.ext_iff]
  · rw [if_pos htup]
    simp only [Prod.ext_iff] at htup
    by_cases hvlt : versionTupleLt (xa, xb, xc) (ya, yb, yc)
    · rw [if_pos hvlt]
      unfold versionTupleLt at hvlt
      dsimp only at hvlt
      refine iff_of_false (by norm_num) (not_not_intro ?_)
      tauto
    · rw [if_neg hvlt]
      unfold versionTupleLt at hvlt
      push_neg at hvlt
      dsimp only at hvlt
      refine iff_of_true (by norm_num) ?_
      intro hbig
      rcases hbig with h | ⟨e1, h | ⟨e2, h | ⟨e3, _⟩⟩⟩
      · omega
      · have := hvlt.2 e1
        omega
      · have := (hvlt.2 e1).2 e2
        omega
      · exact htup ⟨e1, e2, e3⟩

lemma insertBefore_append_left (ds x : Nat) (pre suf : List Nat) (hpre : ds ∉ pre) :
    insertBefore ds x (pre ++ ds :: suf) = pre ++ x :: ds :: suf := by
  induction pre with
  | nil => simp [insertBefore]
  | cons a t ih =>
    simp only [List.mem_cons, not_or] at hpre
    simp only [List.cons_append, insertBefore, List.append_eq]
    rw [if_neg (fun h => hpre.1 h.symm), ih (by simpa using hpre.2)]

/-- C5: for every IDE version string that parses as a strict version,
`isIDEVersionCompatible` returns `True` exactly when the version is
greater than or equal to `4.7.0` in the strict-version order (a
prerelease such as `4.7.0a1` sorting below the release `4.7.0`). -/
theorem c5_isIDEVersionCompatible_iff_ge (v : String) (sv : StrictVersionV)
    (h : parseStrictVersion v = some sv) :
    isIDEVersionCompatible v = some true ↔ specVersionGe sv minimumIDEVersion := by
  unfold isIDEVersionCompatible specVersionGe minimumIDEVersion
  rw [h]
  simp only [Option.map_some', Option.some.injEq, decide_eq_true_eq]
  exact strictVersionCmp_nonneg_iff sv ⟨4, 7, 0, none⟩

/-- Witness for C5 at the concrete version string `5.0`. -/
theorem c5_isIDEVersionCompatible_witness :
    parseStrictVersion "5.0" = some ⟨5, 0, 0, none⟩ ∧
    (isIDEVersionCompatible "5.0" = some true ↔
      specVersionGe ⟨5, 0, 0, none⟩ minimumIDEVersion) :=
  ⟨by decide, c5_isIDEVersionCompatible_iff_ge "5.0" ⟨5, 0, 0, none⟩ (by decide)⟩

/-- C4: constructing the dialog with a `where` argument equal to `LOG`
or `CONSOLE` and reading `getCheckedOption` returns that same value;
any other argument (including `NEW_TAB` itself and any non-member value)
yields `NEW_TAB`; and `configure` passes the plugin home directory path
string as the `where` argument, so the dialog always opens with the
new-tab option checked. -/
theorem c4_dialog_where_roundtrip :
    (∀ q : ℚ, q = IntrospectionPluginConfigDialog.LOG ∨
        q = IntrospectionPluginConfigDialog.CONSOLE →
      IntrospectionPluginConfigDialog.getCheckedOption
        (IntrospectionPluginConfigDialog.dialogInit (.num q)) = q)
    ∧ (∀ w : PyWhere, w ≠ .num IntrospectionPluginConfigDialog.LOG →
        w ≠ .num IntrospectionPluginConfigDialog.CONSOLE →
      IntrospectionPluginConfigDialog.getCheckedOption
        (IntrospectionPluginConfigDialog.dialogInit w) =
          IntrospectionPluginConfigDialog.NEW_TAB)
    ∧ (∀ pluginHomeDir : String,
      IntrospectionPluginConfigDialog.dialogInit
          (configureDialogWhereArg pluginHomeDir) =
        IntrospectionPluginConfigDialog.CheckedButton.newtabButton ∧
      IntrospectionPluginConfigDialog.getCheckedOption
        (IntrospectionPluginConfigDialog.dialogInit
          (configureDialogWhereArg pluginHomeDir)) =
          IntrospectionPluginConfigDialog.NEW_TAB) := by
  refine ⟨?_, ?_, ?_⟩
  · rintro q (rfl | rfl) <;>
      simp [IntrospectionPluginConfigDialog.dialogInit,
        IntrospectionPluginConfigDialog.getCheckedOption,
        IntrospectionPluginConfigDialog.LOG,
        IntrospectionPluginConfigDialog.CONSOLE]
  · intro w h0 h1
    unfold IntrospectionPluginConfigDialog.dialogInit
    rw [if_neg h0, if_neg h1]
    rfl
  · intro pluginHomeDir
    constructor <;>
      simp [IntrospectionPluginConfigDialog.dialogInit,
        IntrospectionPluginConfigDialog.getCheckedOption,
        configureDialogWhereArg]

/-- Witness for C4: the round trip at `CONSOLE`, at the non-member
value 7, and at a concrete home directory path. -/
theorem c4_dialog_where_witness :
    IntrospectionPluginConfigDialog.getCheckedOption
      (IntrospectionPluginConfigDialog.dialogInit (.num 1)) = 1
    ∧ IntrospectionPluginConfigDialog.getCheckedOption
        (IntrospectionPluginConfigDialog.dialogInit (.num 7)) =
          IntrospectionPluginConfigDialog.NEW_TAB
    ∧ IntrospectionPluginConfigDialog.getCheckedOption
        (IntrospectionPluginConfigDialog.dialogInit
          (configureDialogWhereArg "/plugins/ideintrospection/")) =
          IntrospectionPluginConfigDialog.NEW_TAB :=
  ⟨c4_dialog_where_roundtrip.1 1 (Or.inr rfl),
   c4_dialog_where_roundtrip.2.1 (.num 7) (by decide) (by decide),
   (c4_dialog_where_roundtrip.2.2 "/plugins/ideintrospection/").2⟩

/-- C8 counterexample: with the configuration file present and holding
`where: 1.5`, `__getConfiguredWhere` returns the stored `1.5`, which is
not a member of `[LOG, CONSOLE, NEW_TAB] = [0, 1, 2]`, neither as a JSON
value nor under Python numeric equality. -/
theorem c8_counterexample_fractional_where :
    getConfiguredWhere true (.jobj [("where", .jnum (3 / 2))]) = .jnum (3 / 2)
    ∧ pyAsNum (getConfiguredWhere true (.jobj [("where", .jnum (3 / 2))])) =
        some (3 / 2)
    ∧ ¬((3 : ℚ) / 2 = 0 ∨ (3 : ℚ) / 2 = 1 ∨ (3 : ℚ) / 2 = 2) := by
  have h1 : getConfiguredWhere true (.jobj [("where", .jnum (3 / 2))]) =
      .jnum (3 / 2) := by
    unfold getConfiguredWhere introValues getItem
    norm_num [List.find?, pyAsNum]
  exact ⟨h1, by rw [h1]; rfl, by norm_num⟩

/-- C8 (amended): `__getConfiguredWhere` always returns a value that
compares within `[LOG, NEW_TAB]`; it returns `CONSOLE` when the file
does not exist, when the `where` key is missing, when the stored value
cannot be compared to an `int`, or when the stored value is out of
range, and otherwise returns the stored value itself (which need not be
one of the three constants). -/
theorem c8_getConfiguredWhere_range (fileExists : Bool) (loaded : JVal) :
    pyInRange (getConfiguredWhere fileExists loaded) = true
    ∧ (fileExists = false → getConfiguredWhere fileExists loaded = .jnum 1)
    ∧ (getItem (introValues fileExists loaded) "where" = none →
        getConfiguredWhere fileExists loaded = .jnum 1)
    ∧ (∀ v, getItem (introValues fileExists loaded) "where" = some v →
        pyAsNum v = none → getConfiguredWhere fileExists loaded = .jnum 1)
    ∧ (∀ v q, getItem (introValues fileExists loaded) "where" = some v →
        pyAsNum v = some q → (q < 0 ∨ 2 < q) →
        getConfiguredWhere fileExists loaded = .jnum 1)
    ∧ (∀ v q, getItem (introValues fileExists loaded) "where" = some v →
        pyAsNum v = some q → 0 ≤ q → q ≤ 2 →
        getConfiguredWhere fileExists loaded = v) := by
  refine ⟨?_, ?_, ?_, ?_, ?_, ?_⟩
  · unfold getConfiguredWhere
    cases hg : getItem (introValues fileExists loaded) "where" with
    | none => norm_num [pyInRange, pyAsNum]
    | some v =>
      dsimp only
      cases hn : pyAsNum v with
      | none => norm_num [pyInRange, pyAsNum]
      | some q =>
        dsimp only
        by_cases hr : q < 0 ∨ 2 < q
        · rw [if_pos hr]; norm_num [pyInRange, pyAsNum]
        · rw [if_neg hr]
          push_neg at hr
          unfold pyInRange
          rw [hn]
          simpa using ⟨hr.1, hr.2⟩
  · intro hfe
    subst hfe
    rfl
  · intro hg
    unfold getConfiguredWhere
    rw [hg]
  · intro v hg hn
    unfold getConfiguredWhere
    rw [hg]
    dsimp only
    rw [hn]
  · intro v q hg hn hr
    unfold getConfiguredWhere
    rw [hg]
    dsimp only
    rw [hn]
    dsimp only
    rw [if_pos hr]
  · intro v q hg hn h0 h2
    unfold getConfiguredWhere
    rw [hg]
    dsimp only
    rw [hn]
    dsimp only
    rw [if_neg (by push_neg; exact ⟨h0, h2⟩)]

/-- Witness for C8 (amended): a missing file yields `CONSOLE`, and an
in-range stored value 2 is returned as stored. -/
theorem c8_getConfiguredWhere_range_witness :
    getConfiguredWhere false .jnull = .jnum 1
    ∧ getConfiguredWhere true (.jobj [("where", .jnum 2)]) = .jnum 2 :=
  ⟨(c8_getConfiguredWhere_range false .jnull).2.1 rfl,
   (c8_getConfiguredWhere_range true (.jobj [("where", .jnum 2)])).2.2.2.2.2
     (.jnum 2) 2 rfl rfl (by norm_num) (by norm_num)⟩

/-- C1 (code bug): in the first `__memoryDiff` call after `activate`
(activation stores snapshot 0; the call takes snapshots 1 and 2), the
statistics printed compare snapshot 1 against snapshot 2 — a second
snapshot taken inside the same invocation, the assignment
`self.__lastSnapshot = tracemalloc.take_snapshot()` having overwritten
the stored baseline before `compare_to` runs — not against the snapshot
stored by `activate`; and the no-op
`self.__lastSnapshot = self.__lastSnapshot` leaves the stored snapshot
equal to that second snapshot, not to the invocation's first snapshot. -/
theorem c1_memoryDiff_compares_fresh_snapshot :
    (activateSnapshotInit 0).lastSnapshot = 0
    ∧ (memoryDiff (activateSnapshotInit 0)).comparedCurrent = 1
    ∧ (memoryDiff (activateSnapshotInit 0)).comparedAgainst = 2
    ∧ (memoryDiff (activateSnapshotInit 0)).comparedAgainst ≠
        (activateSnapshotInit 0).lastSnapshot
    ∧ (memoryDiff (activateSnapshotInit 0)).state.lastSnapshot ≠
        (memoryDiff (activateSnapshotInit 0)).comparedCurrent := by
  decide

/-- C6 (code bug): starting from a fresh plugin and a toolbar holding
only `debugSpacer` (id 0), `activate` leaves `self.__diffButton` and
`self.__refButton` holding `None` (the result of `insertAction`), so
`deactivate` raises at `self.__diffButton.triggered.disconnect` after
only the two menu-entry disconnects: the exception escapes, every
toolbar item `activate` inserted (separator 1, summary button 4, diff
action 5, reference action 6) is still on the toolbar, and the diff and
reference-browser connections are still connected. -/
theorem c6_deactivate_raises_and_leaves_toolbar :
    (activate initialPluginState 0).diffButton = none
    ∧ (activate initialPluginState 0).refButton = none
    ∧ (deactivate (activate initialPluginState 0)).2 = true
    ∧ (deactivate (activate initialPluginState 0)).1.qt.toolbar = [1, 4, 5, 6, 0]
    ∧ (5, Handler.memoryDiff) ∈
        (deactivate (activate initialPluginState 0)).1.qt.connections
    ∧ (6, Handler.referenceBrowser) ∈
        (deactivate (activate initialPluginState 0)).1.qt.connections := by
  decide

/-- C9: on any toolbar in which `debugSpacer` occurs (first at the
border of `pre` and `suf`, with fresh ids above every present id),
`activate` inserts before `debugSpacer` exactly a separator, the
memory-summary button action, the `Memory usage diff` action and the
`Reference browser` action, in this order; the button's menu holds
exactly the two entries `Full memory objects list` (connected to
`__onFullMemoryReport`) and `Memory objects without functions and
modules` (connected to `__onReducedMemoryReport`); and the new signal
connections are exactly those two plus `__memoryDiff` on the diff
action and `__referenceBrowser` on the reference action. -/
theorem c9_activate_inserts_before_debugSpacer (p : PluginState) (ds : Nat)
    (pre suf : List Nat) (htb : p.qt.toolbar = pre ++ ds :: suf)
    (hpre : ds ∉ pre) (hds : ds < p.qt.nextId) :
    (activate p ds).qt.toolbar =
      pre ++ p.qt.nextId :: (p.qt.nextId + 3) :: (p.qt.nextId + 4) ::
        (p.qt.nextId + 5) :: ds :: suf
    ∧ (activate p ds).qt.connections = p.qt.connections ++
        [(p.qt.nextId + 1, Handler.onFullMemoryReport),
         (p.qt.nextId + 2, Handler.onReducedMemoryReport),
         (p.qt.nextId + 4, Handler.memoryDiff),
         (p.qt.nextId + 5, Handler.referenceBrowser)]
    ∧ (activate p ds).memMenu =
        [(p.qt.nextId + 1, Handler.onFullMemoryReport,
          "Full memory objects list"),
         (p.qt.nextId + 2, Handler.onReducedMemoryReport,
          "Memory objects without functions and modules")]
    ∧ (activate p ds).qt.actionTexts = p.qt.actionTexts ++
        [(p.qt.nextId + 4, "Memory usage diff"),
         (p.qt.nextId + 5, "Reference browser")]
    ∧ (activate p ds).separator = some p.qt.nextId
    ∧ (activate p ds).memSummaryButton = some (p.qt.nextId + 3) := by
  have h1 : insertBefore ds p.qt.nextId (pre ++ ds :: suf) =
      pre ++ p.qt.nextId :: ds :: suf :=
    insertBefore_append_left ds p.qt.nextId pre suf hpre
  have h2 : insertBefore ds (p.qt.nextId + 3) (pre ++ p.qt.nextId :: ds :: suf) =
      pre ++ p.qt.nextId :: (p.qt.nextId + 3) :: ds :: suf := by
    have := insertBefore_append_left ds (p.qt.nextId + 3) (pre ++ [p.qt.nextId]) suf
      (by intro hmem
          rcases List.mem_append.mp hmem with h | h
          · exact hpre h
          · simp only [List.mem_singleton] at h
            omega)
    simpa using this
  have h3 : insertBefore ds (p.qt.nextId + 4)
        (pre ++ p.qt.nextId :: (p.qt.nextId + 3) :: ds :: suf) =
      pre ++ p.qt.nextId :: (p.qt.nextId + 3) :: (p.qt.nextId + 4) :: ds :: suf := by
    have := insertBefore_append_left ds (p.qt.nextId + 4)
      (pre ++ [p.qt.nextId, p.qt.nextId + 3]) suf
      (by intro hmem
          rcases List.mem_append.mp hmem with h | h
          · exact hpre h
          · simp only [List.mem_cons, List.mem_singleton, List.not_mem_nil, or_false] at h
            omega)
    simpa using this
  have h4 : insertBefore ds (p.qt.nextId + 5)
        (pre ++ p.qt.nextId :: (p.qt.nextId + 3) :: (p.qt.nextId + 4) :: ds :: suf) =
      pre ++ p.qt.nextId :: (p.qt.nextId + 3) :: (p.qt.nextId + 4) ::
        (p.qt.nextId + 5) :: ds :: suf := by
    have := insertBefore_append_left ds (p.qt.nextId + 5)
      (pre ++ [p.qt.nextId, p.qt.nextId + 3, p.qt.nextId + 4]) suf
      (by intro hmem
          rcases List.mem_append.mp hmem with h | h
          · exact hpre h
          · simp only [List.mem_cons, List.mem_singleton, List.not_mem_nil, or_false] at h
            omega)
    simpa using this
  refine ⟨?_, ?_, ?_, ?_, ?_, ?_⟩ <;>
    simp [activate, createMemoryMenu, htb, h1, h2, h3, h4]

/-- Witness for C9: the concrete initial state whose toolbar is just
`debugSpacer`. -/
theorem c9_activate_inserts_witness :
    (activate initialPluginState 0).qt.toolbar = [1, 4, 5, 6, 0]
    ∧ (activate initialPluginState 0).qt.connections =
        [(2, Handler.onFullMemoryReport), (3, Handler.onReducedMemoryReport),
         (5, Handler.memoryDiff), (6, Handler.referenceBrowser)] := by
  have h := c9_activate_inserts_before_debugSpacer initialPluginState 0 [] []
    rfl (by simp) (by decide)
  exact ⟨h.1, by simpa using h.2.1⟩

/-- C3 counterexample: after `activate`, every toolbar or menu entry the
plugin wired is connected to one of the four slots, and none of those
slots makes a call that triggers a debugger breakpoint — so no installed
entry is wired to a debugger breakpoint trigger. -/
theorem c3_counterexample_no_breakpoint_trigger :
    (((activate initialPluginState 0).qt.connections.map Prod.snd).all
      (fun h => !(decide (ExtCall.debuggerBreakpoint ∈ handlerCalls h)))) = true := by
  decide

/-- C3 (amended): the plugin exposes its memory-introspection utilities
(the two object-summary reports, the memory usage diff, the reference
browser) through toolbar buttons and menus; no installed entry triggers
a debugger breakpoint. -/
theorem c3_installed_utilities :
    ((activate initialPluginState 0).qt.connections.map Prod.snd =
      [Handler.onFullMemoryReport, Handler.onReducedMemoryReport,
       Handler.memoryDiff, Handler.referenceBrowser])
    ∧ (((activate initialPluginState 0).qt.connections.map Prod.snd).all
        (fun h => !(decide (ExtCall.debuggerBreakpoint ∈ handlerCalls h)))) = true := by
  decide

/-- C2: the stored `where` setting has no effect on report output — each
report slot produces identical output under any two settings, and every
line any of them emits is written with Python `print` (none goes to the
log tab or to a new editor tab). -/
theorem c2_reports_ignore_where_setting (w1 w2 : ℚ) (w : ReportWorld) :
    onFullMemoryReport w1 w = onFullMemoryReport w2 w
    ∧ onReducedMemoryReport w1 w = onReducedMemoryReport w2 w
    ∧ memoryDiffReport w1 w = memoryDiffReport w2 w
    ∧ (onFullMemoryReport w1 w).all isConsolePrint = true
    ∧ (onReducedMemoryReport w1 w).all isConsolePrint = true
    ∧ (memoryDiffReport w1 w).all isConsolePrint = true := by
  refine ⟨rfl, rfl, rfl, ?_, ?_, ?_⟩ <;>
    simp [onFullMemoryReport, onReducedMemoryReport, memoryDiffReport,
      List.all_eq_true, isConsolePrint]

/-- C7: the reports forward everything to the external libraries:
the full report prints the pympler summary of
`muppy.get_objects(remove_dups=True, include_frames=False)` with a row
limit of 10000, and the reduced report prints the summary of exactly
those returned objects that are neither functions nor modules (same row
limit), followed by the tracemalloc report. -/
theorem c7_reports_forward_to_libraries (wh : ℚ) (w : ReportWorld) :
    onFullMemoryReport wh w =
      (w.summaryLines (w.summarize (w.getObjects true false)) 10000).map
        OutEvent.consolePrint
    ∧ ∃ reducedObjs : List PyObj,
        (∀ x, x ∈ reducedObjs ↔
          (x ∈ w.getObjects true false ∧ x.isFunction = false ∧ x.isModule = false))
        ∧ onReducedMemoryReport wh w =
            ((w.summaryLines (w.summarize reducedObjs) 10000).map
              OutEvent.consolePrint)
            ++ [OutEvent.consolePrint "Tracemalloc report"]
            ++ ((w.displayTopLines "traceback").map OutEvent.consolePrint) := by
  refine ⟨rfl, (w.getObjects true false).filter
    (fun x => !x.isFunction && !x.isModule), ?_, rfl⟩
  intro x
  simp [List.mem_filter]

/-- C10: each of the four menu-population callbacks returns with the
menu passed to it unchanged and the plugin state untouched (their bodies
only `del` the local parameter name). -/
theorem c10_populate_callbacks_leave_menu_unchanged (p : PluginState)
    (m : List (Nat × String)) :
    populateMainMenu p m = (p, m)
    ∧ populateFileContextMenu p m = (p, m)
    ∧ populateDirectoryContextMenu p m = (p, m)
    ∧ populateBufferContextMenu p m = (p, m) :=
  ⟨rfl, rfl, rfl, rfl⟩
